import Mathlib

/-!
Shallow embedding of the FlipDisc frame-to-grid-to-sound pipeline.
The repository contains three variants of the same program:
`src/unnamed/part_000` (canvas camera display, linear pitch map, voice
pool bound 30), `src/unnamed/part_001` (same structure, exponential
pitch map, delay effect, voice pool bound 30), and `src/script.js`
(a DOM simulator plus a camera variant whose `playDroneSound` has no
pool bound and whose `setDot` updates `previousState` cell by cell).
Machine numbers are modelled as rationals (exact arithmetic), the
live-voice map as the list of its keys, and the per-pixel loop, the
render loop and the `setDot` loop as structural recursions.
-/

/-- `gray = Math.max(0, Math.min(255, gray))` (part_000 line 268). -/
def clamp255 (x : ℚ) : ℚ := max 0 (min 255 x)

/-- The adjusted gray value of one cell, from part_000 lines 259-268:
gray = (r+g+b)/3, then `gray += brightness`, then
`gray = ((gray - 128) * (contrast / 100)) + 128`, then the clamp. -/
def adjustedGray (r g b brightness contrast : ℚ) : ℚ :=
  clamp255 ((((r + g + b) / 3 + brightness) - 128) * (contrast / 100) + 128)

/-- Binary state of one cell, part_000 line 271:
`this.currentState[i] = gray > this.threshold ? 1 : 0`. -/
def pixelState (r g b brightness contrast threshold : ℚ) : Bool :=
  decide (adjustedGray r g b brightness contrast > threshold)

/-- Modelled from the spec: the five-step contract of the Threshold
Engine (spec section 4.2), written for the refinement comparison of
claim C4: luma is the unweighted mean, brightness is added, contrast
is applied around 128, the result is clamped to 0..255 and compared
strictly against the threshold. -/
def specPixelState (r g b brightness contrast threshold : ℚ) : Bool :=
  let luma := (r + g + b) / 3
  let luma1 := luma + brightness
  let luma2 := (luma1 - 128) * (contrast / 100) + 128
  let clamped := max 0 (min 255 luma2)
  decide (clamped > threshold)

/-- Audio and voice state of the part_000 / part_001 synthesizer.
`activeOscillators` is the list of keys of the live-voice Map. -/
structure Engine where
  soundEnabled : Bool
  audioContext : Bool
  volume : ℚ
  activeOscillators : List (Nat × Nat)
  maxOscillators : Nat
deriving DecidableEq

/-- `playDroneSound` of part_000 (lines 72-121) restricted to its
effect on the live-voice map: return unchanged if sound is disabled or
the audio context is absent (line 73), if the pool is full
(`size >= maxOscillators`, line 74), or if the key is already live
(line 77); otherwise record the new voice (line 116). part_001 lines
103-108 have the same guards. -/
def playDroneSound (e : Engine) (row col : Nat) : Engine :=
  if !e.soundEnabled || !e.audioContext then e
  else if e.maxOscillators ≤ e.activeOscillators.length then e
  else if (row, col) ∈ e.activeOscillators then e
  else { e with activeOscillators := e.activeOscillators ++ [(row, col)] }

/-- The `oscillator.onended` completion callback of part_000 lines
118-120: `this.activeOscillators.delete(key)`. -/
def voiceEnded (e : Engine) (row col : Nat) : Engine :=
  { e with activeOscillators := e.activeOscillators.erase (row, col) }

/-- The sound-triggering part of the `renderDots` loop of part_000
(lines 127-155), flattened over the cell index `i = row * cols + col`:
if the cell activated (`state && !previousState[index]`, line 148) and
the draw exceeds 0.85 (line 150) then `playDroneSound(row, col)`.
`n` counts the remaining cells. -/
def renderDotsGo (current previous : List Bool) (rand : Nat → ℚ) (cols : Nat) :
    Engine → Nat → Nat → Engine
  | e, _, 0 => e
  | e, i, n+1 =>
    renderDotsGo current previous rand cols
      (if current.getD i false && !previous.getD i false then
        (if rand i > 85 / 100 then playDroneSound e (i / cols) (i % cols) else e)
       else e)
      (i + 1) n

/-- Result of one `renderDots` call of part_000: the engine after the
loop and the new previous grid. -/
structure RenderResult where
  engine : Engine
  previousState : List Bool

/-- `renderDots` of part_000 (lines 124-159): the loop reads only the
pre-tick `previousState`, and `this.previousState.set(this.currentState)`
runs after the loop (line 158). -/
def renderDots000 (rows cols : Nat) (current previous : List Bool)
    (rand : Nat → ℚ) (e : Engine) : RenderResult :=
  { engine := renderDotsGo current previous rand cols e 0 (rows * cols)
    previousState := current }

/-- Events the part_000 trigger engine can receive: a single trigger
attempt, a full render tick, or a voice completion callback. -/
inductive Event where
  | trigger (row col : Nat)
  | tick (current previous : List Bool) (rand : Nat → ℚ) (cols rows : Nat)
  | ended (row col : Nat)

/-- How each event acts on the engine state. -/
def stepEvent (e : Engine) : Event → Engine
  | Event.trigger row col => playDroneSound e row col
  | Event.tick current previous rand cols rows =>
      renderDotsGo current previous rand cols e 0 (rows * cols)
  | Event.ended row col => voiceEnded e row col

/-- Audio and voice state of the script.js camera variant. -/
structure SJEngine where
  soundEnabled : Bool
  audioContext : Bool
  activeOscillators : List (Nat × Nat)
deriving DecidableEq

/-- `playDroneSound` of src/script.js (lines 439-498): guard on sound
and audio context (line 440), no-retrigger guard on the key (line 445),
and no pool-size guard at all; the voice is always recorded otherwise
(line 492). -/
def playDroneSoundSJ (e : SJEngine) (row col : Nat) : SJEngine :=
  if !e.soundEnabled || !e.audioContext then e
  else if (row, col) ∈ e.activeOscillators then e
  else { e with activeOscillators := e.activeOscillators ++ [(row, col)] }

/-- One `setDot(index, state, true)` call of src/script.js (lines
501-527), restricted to the previous grid and the list of cells for
which `playDroneSound` was called: return unchanged if
`previousState[index] === state` (line 505), otherwise overwrite
`previousState[index]` (line 507) and, when the new state is on,
record the sound call (lines 517-519). -/
def setDotCore (acc : List Bool × List Nat) (i : Nat) (state : Bool) :
    List Bool × List Nat :=
  if acc.1.getD i false = state then acc
  else if state then (acc.1.set i state, acc.2 ++ [i])
  else (acc.1.set i state, acc.2)

/-- The per-cell loop of `processFrame` in src/script.js (lines
602-621), which calls `setDot i state` for each cell index in order;
`n` counts the remaining cells. -/
def tickGo (states : List Bool) : List Bool × List Nat → Nat → Nat → List Bool × List Nat
  | acc, _, 0 => acc
  | acc, i, n+1 => tickGo states (setDotCore acc i (states.getD i false)) (i + 1) n

/-- One full script.js camera tick over precomputed binary states:
previous grid in, (final previous grid, sound-call list) out. -/
def tickSJ (prev states : List Bool) : List Bool × List Nat :=
  tickGo states (prev, []) 0 states.length

/-- A cell activated this tick: `current[i] && !previous[i]`
(part_000 line 148; script.js flips to on at lines 505-519). -/
def activated (previous current : List Bool) (i : Nat) : Bool :=
  current.getD i false && !previous.getD i false

/-- A cell deactivated this tick: `previous[i] && !current[i]`
(the flip-to-off case of script.js setDot, lines 505-507 with
`state = false`). -/
def deactivated (previous current : List Bool) (i : Nat) : Bool :=
  previous.getD i false && !current.getD i false

/-- Row-to-frequency map of part_000 (lines 79-83), linear:
`80 + (600 - 80) * (1 - row / 120)`. -/
def frequency000 (row : ℕ) : ℚ := 80 + (600 - 80) * (1 - (row : ℚ) / 120)

/-- Row-to-frequency map of the script.js camera variant (lines
447-451), linear: `60 + (800 - 60) * (1 - row / 120)`. -/
def frequencySJ (row : ℕ) : ℚ := 60 + (800 - 60) * (1 - (row : ℚ) / 120)

/-- Row-to-frequency map of part_001 (lines 110-116), exponential:
`30 * Math.pow(4000 / 30, 1 - row / 120)`. -/
noncomputable def frequency001 (row : ℕ) : ℝ :=
  30 * ((4000 : ℝ) / 30) ^ ((1 : ℝ) - (row : ℝ) / 120)

/-- Modelled from the spec: the pitch-mapping formula of spec section
4.3, `frequency = minFreq * (maxFreq/minFreq) ^ (1 - row/rows)`,
written for the refinement comparison of claim C2. -/
noncomputable def specFrequency (minFreq maxFreq : ℝ) (row rows : ℕ) : ℝ :=
  minFreq * (maxFreq / minFreq) ^ ((1 : ℝ) - (row : ℝ) / (rows : ℝ))

/-- The trigger decision of part_000 line 150 on an explicit draw:
`Math.random() > 0.85`. -/
def triggerDraw000 (r : ℝ) : Prop := r > 85 / 100

/-- The trigger decision of part_001 line 226 on an explicit draw:
`Math.random() > 0.70`. -/
def triggerDraw001 (r : ℝ) : Prop := r > 70 / 100

/-- Draws in [0,1) that lead to a trigger attempt in part_000. -/
def triggerSet000 : Set ℝ := {r | r ∈ Set.Ico (0 : ℝ) 1 ∧ triggerDraw000 r}

/-- Draws in [0,1) that lead to a trigger attempt in part_001. -/
def triggerSet001 : Set ℝ := {r | r ∈ Set.Ico (0 : ℝ) 1 ∧ triggerDraw001 r}

/-- Whole-pipeline state of the part_000 display object. -/
structure System where
  engine : Engine
  currentState : List Bool
  previousState : List Bool
  threshold : ℚ
  brightness : ℚ
  contrast : ℚ
  cameraActive : Bool
  videoReadyState : Nat
  cols : Nat
  rows : Nat
deriving DecidableEq

/-- `processFrame` of part_000 (lines 216-276): skip the tick when the
camera is inactive or the video has no frame ready
(`!this.cameraActive || this.video.readyState < 2`, line 217);
otherwise threshold every sampled pixel into `currentState` (lines
255-272) and run `renderDots` (line 275), which also copies the state
into `previousState`. `pixels i` is the sampled RGB triple of cell `i`. -/
def processFrame (s : System) (pixels : Nat → ℚ × ℚ × ℚ) (rand : Nat → ℚ) : System :=
  if !s.cameraActive || s.videoReadyState < 2 then s
  else
    let cur := (List.range (s.cols * s.rows)).map fun i =>
      pixelState (pixels i).1 (pixels i).2.1 (pixels i).2.2
        s.brightness s.contrast s.threshold
    let res := renderDots000 s.rows s.cols cur s.previousState rand s.engine
    { s with currentState := cur, previousState := res.previousState,
             engine := res.engine }

/-- `setThreshold` of part_000 (lines 278-280):
`this.threshold = parseInt(value)` - no clamping. -/
def setThreshold (s : System) (value : ℤ) : System :=
  { s with threshold := (value : ℚ) }

/-- `setBrightness` of part_000 (lines 282-284). -/
def setBrightness (s : System) (value : ℤ) : System :=
  { s with brightness := (value : ℚ) }

/-- `setContrast` of part_000 (lines 286-288). -/
def setContrast (s : System) (value : ℤ) : System :=
  { s with contrast := (value : ℚ) }

/-- `setVolume` of part_000 (lines 297-302):
`this.volume = value / 100` - no clamping. -/
def setVolume (e : Engine) (value : ℚ) : Engine :=
  { e with volume := value / 100 }

lemma getD_set_ne (l : List Bool) (i j : Nat) (a : Bool) (h : i ≠ j) :
    (l.set i a).getD j false = l.getD j false := by
  induction l generalizing i j with
  | nil => simp
  | cons x xs ih =>
    cases i with
    | zero =>
      cases j with
      | zero => exact absurd rfl h
      | succ j => simp [List.set]
    | succ i =>
      cases j with
      | zero => simp [List.set]
      | succ j =>
        simpa [List.set] using ih i j (fun hc => h (by rw [hc]))

lemma getD_set_self (l : List Bool) (i : Nat) (a : Bool) (h : i < l.length) :
    (l.set i a).getD i false = a := by
  induction l generalizing i with
  | nil => simp at h
  | cons x xs ih =>
    cases i with
    | zero => simp [List.set]
    | succ i => simpa [List.set] using ih i (by simpa using h)

lemma eq_of_getD (l₁ l₂ : List Bool) (hlen : l₁.length = l₂.length)
    (h : ∀ j, l₁.getD j false = l₂.getD j false) : l₁ = l₂ := by
  induction l₁ generalizing l₂ with
  | nil =>
    cases l₂ with
    | nil => rfl
    | cons y ys => simp at hlen
  | cons x xs ih =>
    cases l₂ with
    | nil => simp at hlen
    | cons y ys =>
      have hx := h 0
      simp only [List.getD_cons_zero] at hx
      have ht := ih ys (by simpa using hlen) (fun j => by
        simpa only [List.getD_cons_succ] using h (j + 1))
      rw [hx, ht]

lemma playDroneSound_maxOscillators (e : Engine) (row col : Nat) :
    (playDroneSound e row col).maxOscillators = e.maxOscillators := by
  unfold playDroneSound
  split_ifs <;> rfl

lemma playDroneSound_dropped (e : Engine) (row col : Nat)
    (h : e.maxOscillators ≤ e.activeOscillators.length) :
    playDroneSound e row col = e := by
  unfold playDroneSound
  split_ifs <;> rfl

lemma playDroneSound_retrigger (e : Engine) (row col : Nat)
    (h : (row, col) ∈ e.activeOscillators) :
    playDroneSound e row col = e := by
  unfold playDroneSound
  split_ifs <;> rfl

lemma playDroneSound_length_le (e : Engine) (row col : Nat)
    (h : e.activeOscillators.length ≤ e.maxOscillators) :
    (playDroneSound e row col).activeOscillators.length ≤ e.maxOscillators := by
  unfold playDroneSound
  split_ifs with h1 h2 h3
  · exact h
  · exact h
  · exact h
  · simp only [List.length_append, List.length_cons, List.length_nil]
    omega

lemma playDroneSound_mem (e : Engine) (row col a b : Nat)
    (h : (a, b) ∈ e.activeOscillators) :
    (a, b) ∈ (playDroneSound e row col).activeOscillators := by
  unfold playDroneSound
  split_ifs
  · exact h
  · exact h
  · exact h
  · simp only [List.mem_append]
    exact Or.inl h

lemma playDroneSound_nodup (e : Engine) (row col : Nat)
    (h : e.activeOscillators.Nodup) :
    (playDroneSound e row col).activeOscillators.Nodup := by
  unfold playDroneSound
  split_ifs with h1 h2 h3
  · exact h
  · exact h
  · exact h
  · rw [List.nodup_append]
    refine ⟨h, List.nodup_singleton _, ?_⟩
    intro x hx hx'
    simp only [List.mem_singleton] at hx'
    subst hx'
    exact h3 hx

lemma voiceEnded_length_le (e : Engine) (row col : Nat)
    (h : e.activeOscillators.length ≤ e.maxOscillators) :
    (voiceEnded e row col).activeOscillators.length ≤ e.maxOscillators :=
  le_trans (List.erase_sublist _ _).length_le h

lemma voiceEnded_nodup (e : Engine) (row col : Nat)
    (h : e.activeOscillators.Nodup) :
    (voiceEnded e row col).activeOscillators.Nodup :=
  List.Nodup.erase _ h

lemma voiceEnded_mem (e : Engine) (r c r2 c2 : Nat)
    (hne : (r, c) ≠ (r2, c2)) (h : (r, c) ∈ e.activeOscillators) :
    (r, c) ∈ (voiceEnded e r2 c2).activeOscillators :=
  (List.mem_erase_of_ne hne).2 h

lemma renderDotsGo_maxOscillators (current previous : List Bool)
    (rand : Nat → ℚ) (cols : Nat) :
    ∀ (n i : Nat) (e : Engine),
      (renderDotsGo current previous rand cols e i n).maxOscillators =
        e.maxOscillators := by
  intro n
  induction n with
  | zero => intro i e; rfl
  | succ n ih =>
    intro i e
    unfold renderDotsGo
    rw [ih]
    split_ifs
    · exact playDroneSound_maxOscillators e (i / cols) (i % cols)
    · rfl
    · rfl

lemma renderDotsGo_length_le (current previous : List Bool)
    (rand : Nat → ℚ) (cols : Nat) :
    ∀ (n i : Nat) (e : Engine),
      e.activeOscillators.length ≤ e.maxOscillators →
      (renderDotsGo current previous rand cols e i n).activeOscillators.length ≤
        e.maxOscillators := by
  intro n
  induction n with
  | zero => intro i e h; exact h
  | succ n ih =>
    intro i e h
    unfold renderDotsGo
    split_ifs with h1 h2
    · have hm := playDroneSound_maxOscillators e (i / cols) (i % cols)
      have hl := playDroneSound_length_le e (i / cols) (i % cols) h
      have hr := ih (i + 1) (playDroneSound e (i / cols) (i % cols))
        (by rw [hm]; exact hl)
      rw [hm] at hr
      exact hr
    · exact ih (i + 1) e h
    · exact ih (i + 1) e h

lemma renderDotsGo_mem (current previous : List Bool)
    (rand : Nat → ℚ) (cols : Nat) (a b : Nat) :
    ∀ (n i : Nat) (e : Engine),
      (a, b) ∈ e.activeOscillators →
      (a, b) ∈ (renderDotsGo current previous rand cols e i n).activeOscillators := by
  intro n
  induction n with
  | zero => intro i e h; exact h
  | succ n ih =>
    intro i e h
    unfold renderDotsGo
    split_ifs with h1 h2
    · exact ih (i + 1) _ (playDroneSound_mem e (i / cols) (i % cols) a b h)
    · exact ih (i + 1) e h
    · exact ih (i + 1) e h

lemma renderDotsGo_nodup (current previous : List Bool)
    (rand : Nat → ℚ) (cols : Nat) :
    ∀ (n i : Nat) (e : Engine),
      e.activeOscillators.Nodup →
      (renderDotsGo current previous rand cols e i n).activeOscillators.Nodup := by
  intro n
  induction n with
  | zero => intro i e h; exact h
  | succ n ih =>
    intro i e h
    unfold renderDotsGo
    split_ifs with h1 h2
    · exact ih (i + 1) _ (playDroneSound_nodup e (i / cols) (i % cols) h)
    · exact ih (i + 1) e h
    · exact ih (i + 1) e h

lemma stepEvent_maxOscillators (e : Engine) (ev : Event) :
    (stepEvent e ev).maxOscillators = e.maxOscillators := by
  cases ev with
  | trigger row col => exact playDroneSound_maxOscillators e row col
  | tick current previous rand cols rows =>
      exact renderDotsGo_maxOscillators current previous rand cols (rows * cols) 0 e
  | ended row col => rfl

lemma stepEvent_length_le (e : Engine) (ev : Event)
    (h : e.activeOscillators.length ≤ e.maxOscillators) :
    (stepEvent e ev).activeOscillators.length ≤ e.maxOscillators := by
  cases ev with
  | trigger row col => exact playDroneSound_length_le e row col h
  | tick current previous rand cols rows =>
      exact renderDotsGo_length_le current previous rand cols (rows * cols) 0 e h
  | ended row col => exact voiceEnded_length_le e row col h

lemma stepEvent_nodup (e : Engine) (ev : Event)
    (h : e.activeOscillators.Nodup) :
    (stepEvent e ev).activeOscillators.Nodup := by
  cases ev with
  | trigger row col => exact playDroneSound_nodup e row col h
  | tick current previous rand cols rows =>
      exact renderDotsGo_nodup current previous rand cols (rows * cols) 0 e h
  | ended row col => exact voiceEnded_nodup e row col h

lemma foldl_stepEvent_length_le :
    ∀ (es : List Event) (e : Engine),
      e.activeOscillators.length ≤ e.maxOscillators →
      (es.foldl stepEvent e).activeOscillators.length ≤ e.maxOscillators := by
  intro es
  induction es with
  | nil => intro e h; exact h
  | cons ev es ih =>
    intro e h
    simp only [List.foldl_cons]
    have hm := stepEvent_maxOscillators e ev
    have hr := ih (stepEvent e ev) (by rw [hm]; exact stepEvent_length_le e ev h)
    rw [hm] at hr
    exact hr

lemma foldl_stepEvent_nodup :
    ∀ (es : List Event) (e : Engine),
      e.activeOscillators.Nodup →
      (es.foldl stepEvent e).activeOscillators.Nodup := by
  intro es
  induction es with
  | nil => intro e h; exact h
  | cons ev es ih =>
    intro e h
    simp only [List.foldl_cons]
    exact ih (stepEvent e ev) (stepEvent_nodup e ev h)

lemma frequency000_antitone {r1 r2 : ℕ} (h : r1 ≤ r2) :
    frequency000 r2 ≤ frequency000 r1 := by
  unfold frequency000
  have hc : (r1 : ℚ) ≤ (r2 : ℚ) := by exact_mod_cast h
  linarith

lemma frequency000_strict {r1 r2 : ℕ} (h : r1 < r2) :
    frequency000 r2 < frequency000 r1 := by
  unfold frequency000
  have hc : (r1 : ℚ) < (r2 : ℚ) := by exact_mod_cast h
  linarith

lemma frequencySJ_antitone {r1 r2 : ℕ} (h : r1 ≤ r2) :
    frequencySJ r2 ≤ frequencySJ r1 := by
  unfold frequencySJ
  have hc : (r1 : ℚ) ≤ (r2 : ℚ) := by exact_mod_cast h
  linarith

lemma frequencySJ_strict {r1 r2 : ℕ} (h : r1 < r2) :
    frequencySJ r2 < frequencySJ r1 := by
  unfold frequencySJ
  have hc : (r1 : ℚ) < (r2 : ℚ) := by exact_mod_cast h
  linarith

lemma frequency001_antitone {r1 r2 : ℕ} (h : r1 ≤ r2) :
    frequency001 r2 ≤ frequency001 r1 := by
  unfold frequency001
  have hc : (r1 : ℝ) ≤ (r2 : ℝ) := by exact_mod_cast h
  have hexp : (1 : ℝ) - (r2 : ℝ) / 120 ≤ (1 : ℝ) - (r1 : ℝ) / 120 := by linarith
  have hp := (Real.rpow_le_rpow_left_iff
    (show (1 : ℝ) < 4000 / 30 by norm_num)).2 hexp
  linarith

lemma frequency001_strict {r1 r2 : ℕ} (h : r1 < r2) :
    frequency001 r2 < frequency001 r1 := by
  unfold frequency001
  have hc : (r1 : ℝ) < (r2 : ℝ) := by exact_mod_cast h
  have hexp : (1 : ℝ) - (r2 : ℝ) / 120 < (1 : ℝ) - (r1 : ℝ) / 120 := by linarith
  have hp := (Real.rpow_lt_rpow_left_iff
    (show (1 : ℝ) < 4000 / 30 by norm_num)).2 hexp
  linarith

lemma frequency001_gt_min {row : ℕ} (h : row < 120) :
    30 < frequency001 row := by
  unfold frequency001
  have hc : (row : ℝ) < 120 := by exact_mod_cast h
  have hexp : 0 < (1 : ℝ) - (row : ℝ) / 120 := by linarith
  have hp : (1 : ℝ) < ((4000 : ℝ) / 30) ^ ((1 : ℝ) - (row : ℝ) / 120) :=
    (Real.one_lt_rpow_iff_of_pos (by norm_num)).2
      (Or.inl ⟨by norm_num, hexp⟩)
  linarith

lemma frequency001_spec (row : ℕ) :
    frequency001 row = specFrequency 30 4000 row 120 := by
  unfold frequency001 specFrequency
  norm_num

lemma frequency001_zero : frequency001 0 = 4000 := by
  unfold frequency001
  norm_num [Real.rpow_one]

lemma rpow_half_sq : ((15 : ℝ) / 2) ^ ((1 : ℝ) / 2) * ((15 : ℝ) / 2) ^ ((1 : ℝ) / 2)
    = 15 / 2 := by
  rw [← Real.rpow_add (by norm_num : (0 : ℝ) < 15 / 2)]
  norm_num [Real.rpow_one]

lemma specFrequency_80_600_60 :
    specFrequency 80 600 60 120 = 80 * ((15 : ℝ) / 2) ^ ((1 : ℝ) / 2) := by
  unfold specFrequency
  norm_num

lemma triggerSet000_eq : triggerSet000 = Set.Ioo (85 / 100 : ℝ) 1 := by
  ext r
  simp only [triggerSet000, triggerDraw000, Set.mem_setOf_eq, Set.mem_Ico,
    Set.mem_Ioo]
  constructor
  · rintro ⟨⟨h0, h1⟩, h2⟩
    exact ⟨h2, h1⟩
  · rintro ⟨h2, h1⟩
    exact ⟨⟨by linarith, h1⟩, h2⟩

lemma triggerSet001_eq : triggerSet001 = Set.Ioo (70 / 100 : ℝ) 1 := by
  ext r
  simp only [triggerSet001, triggerDraw001, Set.mem_setOf_eq, Set.mem_Ico,
    Set.mem_Ioo]
  constructor
  · rintro ⟨⟨h0, h1⟩, h2⟩
    exact ⟨h2, h1⟩
  · rintro ⟨h2, h1⟩
    exact ⟨⟨by linarith, h1⟩, h2⟩

lemma volume_triggerSet000 :
    MeasureTheory.volume triggerSet000 = ENNReal.ofReal (15 / 100) := by
  rw [triggerSet000_eq, Real.volume_Ioo]
  norm_num

lemma volume_triggerSet001 :
    MeasureTheory.volume triggerSet001 = ENNReal.ofReal (30 / 100) := by
  rw [triggerSet001_eq, Real.volume_Ioo]
  norm_num
lemma setDotCore_eq (p : List Bool) (calls : List Nat) (i : Nat) (st : Bool) :
    setDotCore (p, calls) i st =
      if p.getD i false = st then (p, calls)
      else if st then (p.set i st, calls ++ [i])
      else (p.set i st, calls) := rfl

lemma tickGo_spec (states : List Bool) :
    ∀ (n i : Nat) (p : List Bool) (calls : List Nat),
      p.length = states.length →
      i + n = states.length →
      (∀ j, j < i → p.getD j false = states.getD j false) →
      tickGo states (p, calls) i n =
        (states, calls ++ (List.range' i n).filter
          (fun j => states.getD j false && !p.getD j false)) := by
  intro n
  induction n with
  | zero =>
    intro i p calls hlen hin hpre
    have hps : p = states := by
      apply eq_of_getD p states hlen
      intro j
      by_cases hj : j < i
      · exact hpre j hj
      · rw [List.getD_eq_default _ _ (by omega : p.length ≤ j),
            List.getD_eq_default _ _ (by omega : states.length ≤ j)]
    subst hps
    simp [tickGo]
  | succ n ih =>
    intro i p calls hlen hin hpre
    have hiltp : i < p.length := by omega
    rw [show tickGo states (p, calls) i (n+1)
        = tickGo states (setDotCore (p, calls) i (states.getD i false)) (i+1) n
      from rfl]
    rw [List.range'_succ]
    by_cases hcase : p.getD i false = states.getD i false
    · rw [setDotCore_eq, if_pos hcase]
      rw [ih (i+1) p calls hlen (by omega) (fun j hj => by
        rcases Nat.lt_succ_iff_lt_or_eq.1 hj with hj' | hj'
        · exact hpre j hj'
        · rw [hj']; exact hcase)]
      congr 1
      rw [List.filter_cons, hcase, Bool.and_not_self]
      simp
    · cases hst : states.getD i false with
      | true =>
        have hp_i : p.getD i false = false := by
          rw [hst] at hcase
          cases hpv : p.getD i false
          · rfl
          · exact absurd hpv hcase
        rw [setDotCore_eq, if_neg (by rw [hp_i]; simp), if_pos rfl]
        rw [ih (i+1) (p.set i true) (calls ++ [i])
          (by rw [List.length_set]; exact hlen) (by omega) (fun j hj => by
            rcases Nat.lt_succ_iff_lt_or_eq.1 hj with hj' | hj'
            · rw [getD_set_ne p i j true (by omega)]
              exact hpre j hj'
            · rw [hj', getD_set_self p i true hiltp, hst])]
        rw [List.filter_congr (fun j hj => by
          rw [getD_set_ne p i j true
            (by have := (List.mem_range'_1).1 hj; omega)])]
        congr 1
        rw [List.filter_cons, hst, hp_i]
        simp [List.append_assoc]
      | false =>
        have hp_i : p.getD i false = true := by
          rw [hst] at hcase
          cases hpv : p.getD i false
          · exact absurd hpv hcase
          · rfl
        rw [setDotCore_eq, if_neg (by rw [hp_i]; simp), if_neg (by simp)]
        rw [ih (i+1) (p.set i false) calls
          (by rw [List.length_set]; exact hlen) (by omega) (fun j hj => by
            rcases Nat.lt_succ_iff_lt_or_eq.1 hj with hj' | hj'
            · rw [getD_set_ne p i j false (by omega)]
              exact hpre j hj'
            · rw [hj', getD_set_self p i false hiltp, hst])]
        rw [List.filter_congr (fun j hj => by
          rw [getD_set_ne p i j false
            (by have := (List.mem_range'_1).1 hj; omega)])]
        congr 1
        rw [List.filter_cons, hst, hp_i]
        simp

lemma tickSJ_spec (prev states : List Bool) (h : prev.length = states.length) :
    tickSJ prev states =
      (states, (List.range states.length).filter
        (fun j => activated prev states j)) := by
  unfold tickSJ
  rw [tickGo_spec states states.length 0 prev [] h (by omega)
    (fun j hj => absurd hj (by omega))]
  rw [List.range_eq_range']
  simp [activated]

lemma playDroneSound_disabled (e : Engine) (row col : Nat)
    (h : e.soundEnabled = false ∨ e.audioContext = false) :
    playDroneSound e row col = e := by
  unfold playDroneSound
  rcases h with h | h <;> rw [if_pos (by simp [h])]

lemma foldl_playDroneSound_disabled (triggers : List (Nat × Nat)) (e : Engine)
    (h : e.soundEnabled = false ∨ e.audioContext = false) :
    triggers.foldl (fun a p => playDroneSound a p.1 p.2) e = e := by
  induction triggers with
  | nil => rfl
  | cons t ts ih =>
    rw [List.foldl_cons, playDroneSound_disabled e t.1 t.2 h]
    exact ih

/-- C4: the binary state a tick produces for a cell equals exactly the
spec pipeline - luma as the unweighted mean of the three channels, plus
brightness, contrast applied around 128, clamped to 0..255 and compared
strictly against the threshold - and an adjusted value exactly equal to
the threshold yields state off. Confirmed: `pixelState` (the source
computation) coincides with `specPixelState` (the spec wording) on all
inputs. -/
theorem C4_threshold_pipeline (r g b br c t : ℚ) :
    pixelState r g b br c t = specPixelState r g b br c t ∧
    pixelState r g b br c (adjustedGray r g b br c) = false := by
  refine ⟨rfl, ?_⟩
  simp [pixelState]

/-- C5 counterexample: the script.js variant interleaves the overwrite of
`previousState` with the classification. On previous = [true, true] and
computed states = [false, false], the tick is the two-step loop shown, and
already after the first `setDot` step (with the second cell still
unclassified) the previous grid is [false, true], no longer the pre-tick
[true, true]. So `previous` is not overwritten "only after the entire
transition set has been computed, never interleaved". -/
theorem C5_counterexample :
    tickSJ [true, true] [false, false] =
      tickGo [false, false] (setDotCore ([true, true], []) 0 false) 1 1 ∧
    (setDotCore ([true, true], []) 0 false).1 = [false, true] ∧
    [false, true] ≠ ([true, true] : List Bool) :=
  ⟨rfl, rfl, by decide⟩

/-- C5 (amended): on every tick a cell is classified activated iff
previous off and current on, deactivated iff previous on and current off,
the two sets are disjoint; in part_000/part_001 the render loop reads only
the pre-tick previous grid and `previous` is overwritten with `current`
after the loop; in script.js `previousState[i]` is overwritten cell by
cell during the loop, but each cell is classified against its own pre-tick
previous value, so the tick still produces exactly the batch-classified
activated set and final previous grid equal to the current states. -/
theorem C5_transition_classification (prev cur : List Bool) (i : Nat)
    (rand : Nat → ℚ) (e : Engine) (rows cols : Nat)
    (h : prev.length = cur.length) :
    (activated prev cur i = true ↔
      (prev.getD i false = false ∧ cur.getD i false = true)) ∧
    (deactivated prev cur i = true ↔
      (prev.getD i false = true ∧ cur.getD i false = false)) ∧
    ¬(activated prev cur i = true ∧ deactivated prev cur i = true) ∧
    tickSJ prev cur = (cur, (List.range cur.length).filter
      (fun j => activated prev cur j)) ∧
    (renderDots000 rows cols cur prev rand e).previousState = cur ∧
    (renderDots000 rows cols cur prev rand e).engine =
      renderDotsGo cur prev rand cols e 0 (rows * cols) := by
  refine ⟨?_, ?_, ?_, tickSJ_spec prev cur h, rfl, rfl⟩
  · cases hp : prev.getD i false <;> cases hc : cur.getD i false <;>
      simp only [activated, hp, hc] <;> decide
  · cases hp : prev.getD i false <;> cases hc : cur.getD i false <;>
      simp only [deactivated, hp, hc] <;> decide
  · cases hp : prev.getD i false <;> cases hc : cur.getD i false <;>
      simp only [activated, deactivated, hp, hc] <;> decide

/-- Witness for C5: the amended claim evaluated on a concrete tick. -/
theorem C5_transition_classification_witness :
    ([true, false] : List Bool).length = ([true, true] : List Bool).length ∧
    tickSJ [true, false] [true, true] =
      ([true, true], (List.range ([true, true] : List Bool).length).filter
        (fun j => activated [true, false] [true, true] j)) :=
  ⟨rfl, (C5_transition_classification [true, false] [true, true] 1 (fun _ => 0)
    ⟨true, true, 1 / 5, [], 30⟩ 1 2 rfl).2.2.2.1⟩

/-- C1 counterexample: the script.js camera variant has no pool-size
guard. With thirty live voices (the configured maximum of the other two
variants is 30), a trigger for a fresh key still creates a thirty-first
Voice, so a trigger arriving at or above the configured maximum is NOT
dropped there. -/
theorem C1_counterexample :
    (playDroneSoundSJ
        ⟨true, true, (List.range 30).map (fun c => (0, c))⟩ 1 0).activeOscillators.length = 31 ∧
    ((⟨true, true, (List.range 30).map (fun c => (0, c))⟩ :
        SJEngine)).activeOscillators.length = 30 ∧
    ¬(31 ≤ 30) := by
  refine ⟨by decide, by decide, by decide⟩

/-- C1 (amended): in the part_000/part_001 engine the live-voice count
never exceeds `maxOscillators` over any event sequence - individual
triggers, full render ticks (including a tick in which every cell
activates at once) and completion callbacks - and a trigger arriving
when the count is at or above the maximum leaves the engine unchanged
(dropped silently). The script.js variant configures no maximum and is
excluded (see the counterexample). -/
theorem C1_voice_pool_bound (es : List Event) (e ef : Engine) (row col : Nat)
    (h : e.activeOscillators.length ≤ e.maxOscillators)
    (hf : ef.maxOscillators ≤ ef.activeOscillators.length) :
    (es.foldl stepEvent e).activeOscillators.length ≤ e.maxOscillators ∧
    playDroneSound ef row col = ef :=
  ⟨foldl_stepEvent_length_le es e h, playDroneSound_dropped ef row col hf⟩

/-- Witness for C1: a pool bounded at 2 stays at 2 across a 2x2 tick in
which all four cells activate and every draw triggers, and a full pool
drops a fresh trigger. -/
theorem C1_voice_pool_bound_witness :
    (⟨true, true, 1 / 5, [], 2⟩ : Engine).activeOscillators.length ≤
      (⟨true, true, 1 / 5, [], 2⟩ : Engine).maxOscillators ∧
    (⟨true, true, 1 / 5, [(0, 0), (0, 1)], 2⟩ : Engine).maxOscillators ≤
      (⟨true, true, 1 / 5, [(0, 0), (0, 1)], 2⟩ :
        Engine).activeOscillators.length ∧
    (([Event.tick (List.replicate 4 true) (List.replicate 4 false)
          (fun _ => 1) 2 2].foldl stepEvent
        (⟨true, true, 1 / 5, [], 2⟩ : Engine)).activeOscillators.length ≤
      (⟨true, true, 1 / 5, [], 2⟩ : Engine).maxOscillators ∧
      playDroneSound (⟨true, true, 1 / 5, [(0, 0), (0, 1)], 2⟩ : Engine) 0 5 =
        (⟨true, true, 1 / 5, [(0, 0), (0, 1)], 2⟩ : Engine)) :=
  ⟨by decide, by decide,
    C1_voice_pool_bound
      [Event.tick (List.replicate 4 true) (List.replicate 4 false)
        (fun _ => 1) 2 2]
      ⟨true, true, 1 / 5, [], 2⟩ ⟨true, true, 1 / 5, [(0, 0), (0, 1)], 2⟩
      0 5 (by decide) (by decide)⟩

/-- C6: at most one live Voice per (row, col) key. A trigger for a key
already present leaves the engine unchanged (no second Voice, part_000
line 77); key-uniqueness of the live map is preserved by every event
sequence; no trigger and no unrelated completion removes a live key
(so only the key's own completion callback, part_000 lines 118-120,
makes it eligible again), and that callback does remove it. -/
theorem C6_single_voice_per_key (e1 e2 e3 : Engine)
    (row col a b r c r2 c2 : Nat) (es : List Event)
    (cur prevL : List Bool) (rand : Nat → ℚ) (cols n : Nat)
    (h1 : (row, col) ∈ e1.activeOscillators)
    (h2 : e2.activeOscillators.Nodup)
    (h3 : (r, c) ∈ e3.activeOscillators)
    (h4 : e3.activeOscillators.Nodup)
    (hne : (r, c) ≠ (r2, c2)) :
    playDroneSound e1 row col = e1 ∧
    ((es.foldl stepEvent e2).activeOscillators).Nodup ∧
    (r, c) ∈ (playDroneSound e3 a b).activeOscillators ∧
    (r, c) ∈ (renderDotsGo cur prevL rand cols e3 0 n).activeOscillators ∧
    (r, c) ∈ (voiceEnded e3 r2 c2).activeOscillators ∧
    (r, c) ∉ (voiceEnded e3 r c).activeOscillators :=
  ⟨playDroneSound_retrigger e1 row col h1,
   foldl_stepEvent_nodup es e2 h2,
   playDroneSound_mem e3 a b r c h3,
   renderDotsGo_mem cur prevL rand cols r c n 0 e3 h3,
   voiceEnded_mem e3 r c r2 c2 hne h3,
   List.Nodup.not_mem_erase h4⟩

/-- Witness for C6 on concrete engines and a concrete event list. -/
theorem C6_single_voice_per_key_witness :
    ((0, 0) ∈ (⟨true, true, 1 / 5, [(0, 0)], 30⟩ :
        Engine).activeOscillators) ∧
    (⟨true, true, 1 / 5, [], 30⟩ : Engine).activeOscillators.Nodup ∧
    ((1, 2) ∈ (⟨true, true, 1 / 5, [(1, 2)], 30⟩ :
        Engine).activeOscillators) ∧
    (⟨true, true, 1 / 5, [(1, 2)], 30⟩ : Engine).activeOscillators.Nodup ∧
    ((1, 2) : Nat × Nat) ≠ (3, 4) ∧
    (playDroneSound (⟨true, true, 1 / 5, [(0, 0)], 30⟩ : Engine) 0 0 =
        (⟨true, true, 1 / 5, [(0, 0)], 30⟩ : Engine) ∧
      (([Event.trigger 0 0].foldl stepEvent
          (⟨true, true, 1 / 5, [], 30⟩ : Engine)).activeOscillators).Nodup ∧
      (1, 2) ∈ (playDroneSound
          (⟨true, true, 1 / 5, [(1, 2)], 30⟩ : Engine) 7 8).activeOscillators ∧
      (1, 2) ∈ (renderDotsGo [true] [false] (fun _ => 1) 1
          (⟨true, true, 1 / 5, [(1, 2)], 30⟩ : Engine) 0 1).activeOscillators ∧
      (1, 2) ∈ (voiceEnded (⟨true, true, 1 / 5, [(1, 2)], 30⟩ : Engine)
          3 4).activeOscillators ∧
      (1, 2) ∉ (voiceEnded (⟨true, true, 1 / 5, [(1, 2)], 30⟩ : Engine)
          1 2).activeOscillators) :=
  ⟨by decide, by decide, by decide, by decide, by decide,
    C6_single_voice_per_key ⟨true, true, 1 / 5, [(0, 0)], 30⟩
      ⟨true, true, 1 / 5, [], 30⟩ ⟨true, true, 1 / 5, [(1, 2)], 30⟩
      0 0 7 8 1 2 3 4 [Event.trigger 0 0] [true] [false] (fun _ => 1) 1 1
      (by decide) (by decide) (by decide) (by decide) (by decide)⟩

/-- C7: when the camera is inactive or the video has no frame ready
(readyState below 2), `processFrame` skips the tick entirely: the whole
state - current grid, previous grid and live-voice set - is unchanged
and no Voice is created (part_000 lines 216-219; script.js lines
579-582 have the identical guard). -/
theorem C7_skip_tick (s : System) (pixels : Nat → ℚ × ℚ × ℚ)
    (rand : Nat → ℚ)
    (h : s.cameraActive = false ∨ s.videoReadyState < 2) :
    processFrame s pixels rand = s ∧
    (processFrame s pixels rand).currentState = s.currentState ∧
    (processFrame s pixels rand).previousState = s.previousState ∧
    (processFrame s pixels rand).engine.activeOscillators =
      s.engine.activeOscillators := by
  have hg : processFrame s pixels rand = s := by
    unfold processFrame
    split_ifs with hif
    · rfl
    · exfalso
      rcases h with h | h
      · simp [h] at hif
      · simp [h] at hif
  exact ⟨hg, by rw [hg], by rw [hg], by rw [hg]⟩

/-- Witness for C7 on a concrete inactive-camera state. -/
theorem C7_skip_tick_witness :
    ((⟨⟨true, true, 1 / 5, [], 30⟩, [], [], 128, 0, 100, false, 0, 120,
        120⟩ : System).cameraActive = false) ∧
    processFrame
        (⟨⟨true, true, 1 / 5, [], 30⟩, [], [], 128, 0, 100, false, 0, 120,
          120⟩ : System) (fun _ => (0, 0, 0)) (fun _ => 0) =
      (⟨⟨true, true, 1 / 5, [], 30⟩, [], [], 128, 0, 100, false, 0, 120,
        120⟩ : System) :=
  ⟨rfl,
    (C7_skip_tick
      (⟨⟨true, true, 1 / 5, [], 30⟩, [], [], 128, 0, 100, false, 0, 120,
        120⟩ : System) (fun _ => (0, 0, 0)) (fun _ => 0) (Or.inl rfl)).1⟩

/-- C8: with sound globally disabled (or the audio context absent),
`playDroneSound` performs no work at all (part_000 lines 72-73;
script.js lines 439-440): over any sequence of activated-cell trigger
events the engine, in particular its live-voice map, is unchanged, so
zero Voices are created. -/
theorem C8_sound_disabled_noop (e : Engine) (triggers : List (Nat × Nat))
    (h : e.soundEnabled = false ∨ e.audioContext = false) :
    triggers.foldl (fun a p => playDroneSound a p.1 p.2) e = e ∧
    (triggers.foldl (fun a p => playDroneSound a p.1 p.2)
        e).activeOscillators = e.activeOscillators := by
  have hg := foldl_playDroneSound_disabled triggers e h
  exact ⟨hg, by rw [hg]⟩

/-- Witness for C8: 1000 simulated activated-cell events on a
sound-disabled engine create zero Voices. -/
theorem C8_sound_disabled_noop_witness :
    ((⟨false, true, 1 / 5, [], 30⟩ : Engine).soundEnabled = false) ∧
    ((List.range 1000).map (fun i => (i / 120, i % 120))).foldl
        (fun a p => playDroneSound a p.1 p.2)
        (⟨false, true, 1 / 5, [], 30⟩ : Engine) =
      (⟨false, true, 1 / 5, [], 30⟩ : Engine) :=
  ⟨rfl,
    (C8_sound_disabled_noop (⟨false, true, 1 / 5, [], 30⟩ : Engine)
      ((List.range 1000).map (fun i => (i / 120, i % 120)))
      (Or.inl rfl)).1⟩

/-- C9 counterexample: the setters do not clamp. `setThreshold(999)`
stores 999, outside the documented domain 0..255, and `setVolume(500)`
stores 5, outside 0..1. -/
theorem C9_counterexample :
    (setThreshold
        (⟨⟨true, true, 1 / 5, [], 30⟩, [], [], 128, 0, 100, false, 0, 120,
          120⟩ : System) 999).threshold = 999 ∧
    ¬((setThreshold
        (⟨⟨true, true, 1 / 5, [], 30⟩, [], [], 128, 0, 100, false, 0, 120,
          120⟩ : System) 999).threshold ≤ 255) ∧
    (setVolume (⟨true, true, 1 / 5, [], 30⟩ : Engine) 500).volume = 5 ∧
    ¬((setVolume (⟨true, true, 1 / 5, [], 30⟩ : Engine) 500).volume ≤ 1) :=
  ⟨by decide, by decide, by norm_num [setVolume], by norm_num [setVolume]⟩

/-- C9 (amended): each setter coerces its numeric input and stores it
as-is - `parseInt(value)` for threshold, brightness and contrast,
`value / 100` for volume - never raising an error, but without any
clamping: an out-of-domain input is stored unchanged, so the stored
parameter may leave its documented domain. -/
theorem C9_setters_store_unclamped (s : System) (e : Engine) (v : ℤ) (w : ℚ) :
    (setThreshold s v).threshold = (v : ℚ) ∧
    (setBrightness s v).brightness = (v : ℚ) ∧
    (setContrast s v).contrast = (v : ℚ) ∧
    (setVolume e w).volume = w / 100 :=
  ⟨rfl, rfl, rfl, rfl⟩

/-- C10: pitch monotonicity. For rows r1 < r2 inside the grid, the
frequency assigned to r1 is at least the frequency assigned to r2 in
all three pitch-mapping variants (part_000 and script.js linear,
part_001 exponential). -/
theorem C10_pitch_monotone (r1 r2 : ℕ) (h : r1 < r2) (h2 : r2 < 120) :
    frequency000 r2 ≤ frequency000 r1 ∧
    frequencySJ r2 ≤ frequencySJ r1 ∧
    frequency001 r2 ≤ frequency001 r1 :=
  ⟨frequency000_antitone h.le, frequencySJ_antitone h.le,
   frequency001_antitone h.le⟩

/-- Witness for C10 at rows 0 and 1. -/
theorem C10_pitch_monotone_witness :
    (0 : ℕ) < 1 ∧ (1 : ℕ) < 120 ∧
    (frequency000 1 ≤ frequency000 0 ∧
      frequencySJ 1 ≤ frequencySJ 0 ∧
      frequency001 1 ≤ frequency001 0) :=
  ⟨by decide, by decide, C10_pitch_monotone 0 1 (by decide) (by decide)⟩

/-- C2 counterexample: the claim fails twice on the code. part_000
computes the row-60 frequency linearly as 340, not the exponential
value 80 * (600/80)^(1/2) of the claimed formula; and even in the
exponential variant part_001 the last row (119) maps to
30 * (4000/30)^(1/120), strictly above the minimum frequency 30, so
the last row does not map to the minimum. -/
theorem C2_counterexample :
    ((frequency000 60 : ℚ) : ℝ) ≠ specFrequency 80 600 60 120 ∧
    frequency001 119 ≠ 30 := by
  constructor
  · have h340 : ((frequency000 60 : ℚ) : ℝ) = 340 := by
      norm_num [frequency000]
    rw [h340, specFrequency_80_600_60]
    intro hEq
    have ht : ((15 : ℝ) / 2) ^ ((1 : ℝ) / 2) = 17 / 4 := by linarith
    have hsq := rpow_half_sq
    rw [ht] at hsq
    norm_num at hsq
  · exact (frequency001_gt_min (by norm_num)).ne'

/-- C2 (amended): part_001 computes the frequency by the exponential
interpolation frequency = 30 * (4000/30)^(1 - row/120), exactly the
spec formula; part_000 and script.js interpolate linearly,
minFreq + (maxFreq - minFreq) * (1 - row/120) with (80, 600) and
(60, 800). In every variant row 0 maps to the maximum frequency and
the frequency strictly decreases with the row, staying strictly above
the minimum frequency on every row of the grid (the last row does not
reach the minimum). -/
theorem C2_pitch_mapping (row r1 r2 : ℕ) (hr : r1 < r2)
    (hrow : row < 120) :
    frequency001 row = specFrequency 30 4000 row 120 ∧
    frequency000 0 = 600 ∧
    frequencySJ 0 = 800 ∧
    frequency001 0 = 4000 ∧
    frequency000 r2 < frequency000 r1 ∧
    frequencySJ r2 < frequencySJ r1 ∧
    frequency001 r2 < frequency001 r1 ∧
    80 < frequency000 row ∧
    60 < frequencySJ row ∧
    30 < frequency001 row := by
  refine ⟨frequency001_spec row, by norm_num [frequency000],
    by norm_num [frequencySJ], frequency001_zero,
    frequency000_strict hr, frequencySJ_strict hr,
    frequency001_strict hr, ?_, ?_, frequency001_gt_min hrow⟩
  · unfold frequency000
    have hc : (row : ℚ) < 120 := by exact_mod_cast hrow
    linarith
  · unfold frequencySJ
    have hc : (row : ℚ) < 120 := by exact_mod_cast hrow
    linarith

/-- Witness for C2 (amended) at row 5 and the row pair (0, 1). -/
theorem C2_pitch_mapping_witness :
    (0 : ℕ) < 1 ∧ (5 : ℕ) < 120 ∧
    (frequency001 5 = specFrequency 30 4000 5 120 ∧
      frequency000 0 = 600 ∧
      frequencySJ 0 = 800 ∧
      frequency001 0 = 4000 ∧
      frequency000 1 < frequency000 0 ∧
      frequencySJ 1 < frequencySJ 0 ∧
      frequency001 1 < frequency001 0 ∧
      80 < frequency000 5 ∧
      60 < frequencySJ 5 ∧
      30 < frequency001 5) :=
  ⟨by decide, by decide, C2_pitch_mapping 5 0 1 (by decide) (by decide)⟩

/-- C3 counterexample: the trigger measure is not in [0.70, 0.85]. In
part_000 the set of draws in [0,1) that lead to a trigger attempt is
(0.85, 1), of measure 0.15: the spec swapped the trigger rate with the
suppression probability. -/
theorem C3_counterexample :
    ¬(ENNReal.ofReal (70 / 100) ≤ MeasureTheory.volume triggerSet000 ∧
      MeasureTheory.volume triggerSet000 ≤ ENNReal.ofReal (85 / 100)) := by
  rw [volume_triggerSet000]
  rintro ⟨hlow, -⟩
  rw [ENNReal.ofReal_le_ofReal_iff (by norm_num)] at hlow
  norm_num at hlow

/-- C3 (amended): the trigger decision is an independent draw whose
trigger set has measure between 0.15 and 0.30 - exactly 0.15 in
part_000 (draws above 0.85) and exactly 0.30 in part_001 (draws above
0.70) - i.e. the suppression probability is the 0.70-0.85 constant and
the trigger rate 15-30 percent. (The script.js camera variant draws no
randomness at all: every activation triggers.) -/
theorem C3_trigger_measure :
    MeasureTheory.volume triggerSet000 = ENNReal.ofReal (15 / 100) ∧
    MeasureTheory.volume triggerSet001 = ENNReal.ofReal (30 / 100) ∧
    ENNReal.ofReal (15 / 100) ≤ MeasureTheory.volume triggerSet000 ∧
    MeasureTheory.volume triggerSet000 ≤ ENNReal.ofReal (30 / 100) ∧
    ENNReal.ofReal (15 / 100) ≤ MeasureTheory.volume triggerSet001 ∧
    MeasureTheory.volume triggerSet001 ≤ ENNReal.ofReal (30 / 100) := by
  refine ⟨volume_triggerSet000, volume_triggerSet001, ?_, ?_, ?_, ?_⟩
  · rw [volume_triggerSet000]
  · rw [volume_triggerSet000]
    exact ENNReal.ofReal_le_ofReal (by norm_num)
  · rw [volume_triggerSet001]
    exact ENNReal.ofReal_le_ofReal (by norm_num)
  · rw [volume_triggerSet001]
